import Mathlib

/-!
Verification of the per-type statement-and-image cache of the ODB SQLite
runtime (odb/sqlite/simple-object-statements.hxx), a shallow embedding.

Conventions of the embedding:
* the object_statements instance is a Lean structure; member functions are
  functions taking and returning that structure;
* an assert failure is modelled as the value none of an Option result;
* prepared-statement handles and the nested container cache, which the C++
  allocates with new, are modelled as Nat identifiers drawn from a fresh-id
  supply field next_statement_id, so that "constructed at most once, same
  instance returned" is observable;
* a delayed-load entry keeps the fields of the C++ struct delayed_load
  (id, obj, pos, loader), with the object pointer and position abstracted
  to Nat and the loader function to an Option Nat identifier;
* the behaviour of the loaders invoked during a drain is a parameter
  beh : delayed_load -> LoaderAct giving, for each entry, the entries the
  loader itself enqueues on the cache while running and whether it throws;
* the bodies of load_delayed_, clear_delayed_ (simple-object-statements.txx)
  and of the auto_lock / auto_unlock members (simple-object-statements.ixx)
  are not part of the repository snapshot; those definitions are modelled
  from the spec and are marked as such in their doc comments.
-/

namespace OdbSqlite

/-- The delayed_load entry (source lines 510-527): id, a non-owning pointer
to the target object, the insertion position and an optional custom loader
function, all abstracted to Nat identifiers. -/
structure delayed_load where
  id : Nat
  obj : Nat
  pos : Nat
  loader : Option Nat
deriving DecidableEq, Repr

/-- Behaviour of one loader invocation during a drain: the entries the
loader enqueues on the same cache while it runs, and whether it exits by
throwing. -/
structure LoaderAct where
  enqueues : List delayed_load
  throws : Bool

/-- The object_statements instance state (source lines 173-553 data members):
the reentrancy lock flag, the pending delayed-load vector, the image
buffers (abstracted), the six image-version counters, the five lazily
constructed statement handles, the optimistic-data erase handle and the
nested container cache pointer.  next_statement_id is the fresh-identifier
supply standing for the C++ allocator. -/
structure object_statements where
  locked_ : Bool
  delayed_ : List delayed_load
  image_ : Nat
  id_image_ : Nat
  select_image_version_ : Nat
  insert_image_version_ : Nat
  update_image_version_ : Nat
  update_id_image_version_ : Nat
  id_image_version_ : Nat
  od_id_image_version_ : Nat
  persist_ : Option Nat
  find_ : Option Nat
  update_ : Option Nat
  erase_ : Option Nat
  od_erase_ : Option Nat
  container_cache_p_ : Option Nat
  next_statement_id : Nat
deriving DecidableEq, Repr

/-! ### Lock primitive (object_statements_base, source lines 96-116) -/

/-- lock (): assert (!locked_); locked_ = true.  The assert failure is the
value none. -/
def lock (s : object_statements) : Option object_statements :=
  if s.locked_ then none else some { s with locked_ := true }

/-- unlock (): assert (locked_); locked_ = false. -/
def unlock (s : object_statements) : Option object_statements :=
  if s.locked_ then some { s with locked_ := false } else none

/-- locked () const: return locked_. -/
def locked (s : object_statements) : Bool :=
  s.locked_

/-! ### Delayed loading (source lines 239-267 and 529-552) -/

/-- delay_load (source lines 244-251): delayed_.push_back (delayed_load
(id, obj, p, l)).  Note: the source performs no lock check here. -/
def delay_load (i o p : Nat) (l : Option Nat) (s : object_statements) :
    object_statements :=
  { s with delayed_ := s.delayed_ ++ [⟨i, o, p, l⟩] }

/-- Modelled from the spec: the body of clear_delayed_ (declared at source
line 456, defined in simple-object-statements.txx which is not in the
snapshot) drops all pending entries without invoking their loaders.
Together with the inline wrapper clear_delayed (source lines 262-267,
which skips the call when the vector is empty) this yields the state with
an empty pending list and an empty list of invoked loaders. -/
def clear_delayed (s : object_statements) :
    object_statements × List delayed_load :=
  if s.delayed_.isEmpty then (s, []) else ({ s with delayed_ := [] }, [])

/-- std::vector::swap of the two delayed-load vectors, as used by
swap_guard (source lines 540 and 546): returns the exchanged pair. -/
def list_swap (a b : List delayed_load) :
    List delayed_load × List delayed_load :=
  (b, a)

/-- Result of running the drain loop of load_delayed_ up to the point the
swap_guard destructor runs: dl is what remains of the local working list,
osd is the cache's own delayed_ list (holding the entries enqueued by the
loaders), log is the sequence of entries whose loader was invoked, in
invocation order, and threw records whether a loader threw. -/
structure DrainResult where
  dl : List delayed_load
  osd : List delayed_load
  log : List delayed_load
  threw : Bool
deriving DecidableEq, Repr

/-- Modelled from the spec: the processing loop of load_delayed_ (declared
at source line 453, defined in simple-object-statements.txx which is not in
the snapshot).  It walks the local working list in enqueue (FIFO) order;
for each entry it invokes the default or the supplied custom loader, which
may itself enqueue further entries on the cache's delayed_ list (the osd
argument) and may throw, in which case the loop stops with the rest of the
working list untouched. -/
def drainLoop (beh : delayed_load → LoaderAct) :
    List delayed_load → List delayed_load → List delayed_load → DrainResult
  | [], osd, log => ⟨[], osd, log, false⟩
  | e :: rest, osd, log =>
    let a := beh e
    if a.throws then
      ⟨rest, osd ++ a.enqueues, log ++ [e], true⟩
    else
      drainLoop beh rest (osd ++ a.enqueues) (log ++ [e])

/-- Modelled from the spec: load_delayed_ wraps the drain loop in the
swap_guard of source lines 535-552.  The guard's constructor swaps the
cache's delayed_ vector with the empty local working list; its destructor
— run on every exit path, normal or exceptional — calls clear_delayed ()
on the cache and then swaps the local list back into the cache.  The
second component is the invocation log, the third whether a loader threw
(the exception then propagates after the guard has run). -/
def load_delayed_impl (beh : delayed_load → LoaderAct)
    (s : object_statements) :
    object_statements × List delayed_load × Bool :=
  let p := list_swap s.delayed_ []
  let s1 := { s with delayed_ := p.1 }
  let r := drainLoop beh p.2 s1.delayed_ []
  let s2 := { s1 with delayed_ := r.osd }
  let s3 := (clear_delayed s2).1
  let q := list_swap s3.delayed_ r.dl
  ({ s3 with delayed_ := q.1 }, r.log, r.threw)

/-- load_delayed (source lines 253-260): assert (locked ()); if
(!delayed_.empty ()) load_delayed_ ().  The assert failure is none. -/
def load_delayed (beh : delayed_load → LoaderAct)
    (s : object_statements) :
    Option (object_statements × List delayed_load × Bool) :=
  if s.locked_ then
    some (if s.delayed_.isEmpty then (s, [], false) else load_delayed_impl beh s)
  else
    none

/-- A sequence of delay_load calls, one per entry of es, in order. -/
def queue_all (es : List delayed_load) (s : object_statements) :
    object_statements :=
  es.foldl (fun t e => delay_load e.id e.obj e.pos e.loader t) s

/-! ### auto_lock (source lines 197-230, bodies in the .ixx file) -/

/-- The auto_lock member state: whether this instance holds the lock. -/
structure auto_lock where
  locked_ : Bool
deriving DecidableEq, Repr

/-- Modelled from the spec: the auto_lock constructor (declared at source
line 204, defined in simple-object-statements.ixx which is not in the
snapshot) locks the statements unless they are already locked, in which
case subsequent calls to locked () will return false. -/
def auto_lock_ctor (s : object_statements) : auto_lock × object_statements :=
  if s.locked_ then (⟨false⟩, s) else (⟨true⟩, { s with locked_ := true })

/-- auto_lock::locked () const: does this instance hold the lock. -/
def auto_lock_locked (l : auto_lock) : Bool :=
  l.locked_

/-- Modelled from the spec: the auto_lock destructor (declared at source
line 211, defined in simple-object-statements.ixx which is not in the
snapshot) unlocks the statements if this instance is holding the lock and
clears the delayed loads; otherwise it does nothing.  The second component
is the list of loaders invoked, empty in all cases. -/
def auto_lock_dtor (l : auto_lock) (s : object_statements) :
    object_statements × List delayed_load :=
  if l.locked_ then
    ((clear_delayed { s with locked_ := false }).1, [])
  else
    (s, [])

/-! ### Image-version accessors (source lines 269-339).  Each C++ accessor
pair is an overloaded getter/setter; the setters get a _set suffix here. -/

/-- insert_image_version () const (source line 277). -/
def insert_image_version (s : object_statements) : Nat :=
  s.insert_image_version_

/-- insert_image_version (std::size_t v) (source line 280). -/
def insert_image_version_set (v : Nat) (s : object_statements) :
    object_statements :=
  { s with insert_image_version_ := v }

/-- update_image_version () const (source line 288). -/
def update_image_version (s : object_statements) : Nat :=
  s.update_image_version_

/-- update_image_version (std::size_t v) (source line 291). -/
def update_image_version_set (v : Nat) (s : object_statements) :
    object_statements :=
  { s with update_image_version_ := v }

/-- update_id_image_version () const (source line 294). -/
def update_id_image_version (s : object_statements) : Nat :=
  s.update_id_image_version_

/-- update_id_image_version (std::size_t v) (source line 297). -/
def update_id_image_version_set (v : Nat) (s : object_statements) :
    object_statements :=
  { s with update_id_image_version_ := v }

/-- select_image_version () const (source line 305). -/
def select_image_version (s : object_statements) : Nat :=
  s.select_image_version_

/-- select_image_version (std::size_t v) (source line 308). -/
def select_image_version_set (v : Nat) (s : object_statements) :
    object_statements :=
  { s with select_image_version_ := v }

/-- id_image_version () const (source line 322). -/
def id_image_version (s : object_statements) : Nat :=
  s.id_image_version_

/-- id_image_version (std::size_t v) (source line 325). -/
def id_image_version_set (v : Nat) (s : object_statements) :
    object_statements :=
  { s with id_image_version_ := v }

/-- optimistic_id_image_version () const (source line 333): reads
od_.id_image_version_. -/
def optimistic_id_image_version (s : object_statements) : Nat :=
  s.od_id_image_version_

/-- optimistic_id_image_version (std::size_t v) (source line 336): writes
od_.id_image_version_. -/
def optimistic_id_image_version_set (v : Nat) (s : object_statements) :
    object_statements :=
  { s with od_id_image_version_ := v }

/-- The tuple of the six stored image-version counters, used to state
which operations leave them all unchanged. -/
def image_versions (s : object_statements) :
    Nat × Nat × Nat × Nat × Nat × Nat :=
  (s.select_image_version_, s.insert_image_version_,
   s.update_image_version_, s.update_id_image_version_,
   s.id_image_version_, s.od_id_image_version_)

/-! ### Lazily constructed statements (source lines 341-425).  The C++
constructs each statement with new on first call and stores the shared
pointer; here construction draws a fresh identifier from
next_statement_id.  Each accessor returns the updated state and the handle
it hands back. -/

/-- persist_statement () (source lines 343-356): construct on first call,
return the stored instance thereafter. -/
def persist_statement (s : object_statements) : object_statements × Nat :=
  match s.persist_ with
  | some p => (s, p)
  | none =>
    ({ s with persist_ := some s.next_statement_id,
              next_statement_id := s.next_statement_id + 1 },
     s.next_statement_id)

/-- find_statement () (source lines 358-372). -/
def find_statement (s : object_statements) : object_statements × Nat :=
  match s.find_ with
  | some p => (s, p)
  | none =>
    ({ s with find_ := some s.next_statement_id,
              next_statement_id := s.next_statement_id + 1 },
     s.next_statement_id)

/-- update_statement () (source lines 374-387). -/
def update_statement (s : object_statements) : object_statements × Nat :=
  match s.update_ with
  | some p => (s, p)
  | none =>
    ({ s with update_ := some s.next_statement_id,
              next_statement_id := s.next_statement_id + 1 },
     s.next_statement_id)

/-- erase_statement () (source lines 389-402). -/
def erase_statement (s : object_statements) : object_statements × Nat :=
  match s.erase_ with
  | some p => (s, p)
  | none =>
    ({ s with erase_ := some s.next_statement_id,
              next_statement_id := s.next_statement_id + 1 },
     s.next_statement_id)

/-- optimistic_erase_statement () (source lines 404-417): constructs and
stores od_.erase_ on first call. -/
def optimistic_erase_statement (s : object_statements) :
    object_statements × Nat :=
  match s.od_erase_ with
  | some p => (s, p)
  | none =>
    ({ s with od_erase_ := some s.next_statement_id,
              next_statement_id := s.next_statement_id + 1 },
     s.next_statement_id)

/-- container_statement_cache_ptr::get (source lines 54-61 and 73-87):
if p_ == 0 allocate (new T (c, id)), then return *p_. -/
def container_statement_cache_ptr_get (s : object_statements) :
    object_statements × Nat :=
  match s.container_cache_p_ with
  | some p => (s, p)
  | none =>
    ({ s with container_cache_p_ := some s.next_statement_id,
              next_statement_id := s.next_statement_id + 1 },
     s.next_statement_id)

/-- container_statment_cache () (source lines 421-425, spelling as in the
source): return container_statement_cache_.get (conn_, id_image_binding_). -/
def container_statment_cache (s : object_statements) :
    object_statements × Nat :=
  container_statement_cache_ptr_get s

/-! ### Column counts (source lines 427-446) -/

/-- The per-mapped-type static descriptor counts consumed from
object_traits: column_count, inverse_column_count,
managed_optimistic_column_count, id_column_count, readonly_column_count,
each a std::size_t value. -/
structure object_traits_t where
  column_count : Nat
  inverse_column_count : Nat
  managed_optimistic_column_count : Nat
  id_column_count : Nat
  readonly_column_count : Nat
deriving DecidableEq, Repr

/-- std::size_t subtraction a - b on a 64-bit target: arithmetic modulo
2 ^ 64 (the operands are size_t values, hence below 2 ^ 64). -/
def size_t_sub (a b : Nat) : Nat :=
  (a + (2 ^ 64 - b % 2 ^ 64)) % 2 ^ 64

/-- select_column_count (source lines 432-433): object_traits::column_count. -/
def select_column_count (t : object_traits_t) : Nat :=
  t.column_count

/-- insert_column_count (source lines 435-437): column_count -
inverse_column_count - managed_optimistic_column_count, in size_t
arithmetic. -/
def insert_column_count (t : object_traits_t) : Nat :=
  size_t_sub (size_t_sub t.column_count t.inverse_column_count)
    t.managed_optimistic_column_count

/-- update_column_count (source lines 439-440): insert_column_count -
id_column_count - readonly_column_count, in size_t arithmetic. -/
def update_column_count (t : object_traits_t) : Nat :=
  size_t_sub (size_t_sub (insert_column_count t) t.id_column_count)
    t.readonly_column_count

/-! ### Optimistic data specialization (source lines 148-171 and 501) -/

/-- The optimistic_data true specialization (source lines 151-165): the id
plus managed-column image version, the id_image_binding_ and the alternate
delete statement handle. -/
structure optimistic_data_true where
  id_image_version_ : Nat
  id_image_binding_ : Nat
  erase_ : Option Nat
deriving DecidableEq, Repr

/-- optimistic_data as a type indexed by the boolean template argument:
the true specialization carries the extra binding and statement, the
false specialization (source lines 167-171) is an empty struct. -/
def optimistic_data : Bool → Type
  | true => optimistic_data_true
  | false => Unit

/-- The boolean selecting the specialization at source line 501:
managed_optimistic_column_count != 0. -/
def od_selector (t : object_traits_t) : Bool :=
  t.managed_optimistic_column_count != 0

/-- The type of the od_ member (source line 501) for a descriptor t. -/
def od_type (t : object_traits_t) : Type :=
  optimistic_data (od_selector t)

/-! ### Concrete instances used in witnesses and counterexamples -/

/-- A cache instance right after construction: unlocked, empty queue, no
statement constructed yet. -/
def base_state : object_statements :=
  ⟨false, [], 0, 0, 0, 0, 0, 0, 0, 0, none, none, none, none, none, none, 0⟩

/-- Loader behaviour that enqueues nothing and never throws. -/
def beh_quiet : delayed_load → LoaderAct :=
  fun _ => ⟨[], false⟩

/-- Three delayed-load entries, the middle one with a custom loader. -/
def c1_entries : List delayed_load :=
  [⟨1, 11, 21, none⟩, ⟨2, 12, 22, some 5⟩, ⟨3, 13, 23, none⟩]

/-- A locked cache with an empty pending queue. -/
def c1_state : object_statements :=
  { base_state with locked_ := true }

/-- Loader behaviour for the exceptional-drain witness: the loader of the
entry with id 2 enqueues a further entry and then throws; the others
enqueue one entry each and return normally. -/
def c2_beh : delayed_load → LoaderAct :=
  fun e =>
    if e.id = 2 then ⟨[⟨9, 19, 29, none⟩], true⟩ else ⟨[⟨8, 18, 28, none⟩], false⟩

/-- A locked cache with three pending delayed loads. -/
def c2_state : object_statements :=
  { base_state with locked_ := true, delayed_ := c1_entries }

/-- A locked cache with one pending delayed load. -/
def c3_locked_state : object_statements :=
  { base_state with locked_ := true, delayed_ := [⟨4, 14, 24, none⟩] }

/-- An unlocked cache with one pending delayed load. -/
def c3_free_state : object_statements :=
  { base_state with delayed_ := [⟨4, 14, 24, none⟩] }

/-- An unlocked cache with a nonzero image version, as left by earlier
operations. -/
def c4_state : object_statements :=
  { base_state with insert_image_version_ := 2 }

/-- An unlocked cache with every statement already constructed. -/
def c6_full_state : object_statements :=
  { base_state with persist_ := some 10, find_ := some 11, update_ := some 12,
                    erase_ := some 13, od_erase_ := some 14,
                    container_cache_p_ := some 15, next_statement_id := 16 }

/-- The descriptor of the spec's column-count example: total 10, inverse 2,
managed optimistic 1, id 1, readonly 1. -/
def c7_traits : object_traits_t :=
  ⟨10, 2, 1, 1, 1⟩

/-- A cache whose insert image version has been set to 5. -/
def c8_state : object_statements :=
  { base_state with insert_image_version_ := 5 }

/-- A descriptor without a managed optimistic column. -/
def c9_plain_traits : object_traits_t :=
  ⟨10, 2, 0, 1, 1⟩

/-! ## Helper lemmas -/

/-- Overwriting an already-empty delayed_ vector with the empty vector is
the identity. -/
theorem delayed_nil_eta (s : object_statements) (h : s.delayed_ = []) :
    { s with delayed_ := ([] : List delayed_load) } = s := by
  cases s
  simp_all

/-- If no loader throws, the drain loop never records a throw. -/
theorem drainLoop_noThrow (beh : delayed_load → LoaderAct)
    (hT : ∀ e, (beh e).throws = false) :
    ∀ q osd log, (drainLoop beh q osd log).threw = false := by
  intro q
  induction q with
  | nil => intro osd log; rfl
  | cons e rest ih =>
    intro osd log
    simp only [drainLoop, hT e, Bool.false_eq_true, if_false]
    exact ih _ _

/-- Characterisation of the drain loop: the invocation log is a prefix of
the working list taken in order, the remaining working list is the
matching suffix exactly when a loader threw (and empty otherwise), and
everything the loaders enqueued went to the cache-side list osd. -/
theorem drainLoop_spec (beh : delayed_load → LoaderAct) :
    ∀ (q osd log : List delayed_load),
      ∃ k, k ≤ q.length ∧
        (drainLoop beh q osd log).log = log ++ q.take k ∧
        (drainLoop beh q osd log).osd
          = osd ++ (q.take k).flatMap (fun e => (beh e).enqueues) ∧
        ((drainLoop beh q osd log).threw = true →
          (drainLoop beh q osd log).dl = q.drop k) ∧
        ((drainLoop beh q osd log).threw = false →
          k = q.length ∧ (drainLoop beh q osd log).dl = []) := by
  intro q
  induction q with
  | nil =>
    intro osd log
    exact ⟨0, by simp [drainLoop]⟩
  | cons e rest ih =>
    intro osd log
    by_cases h : (beh e).throws = true
    · refine ⟨1, by simp, ?_, ?_, ?_, ?_⟩ <;>
        simp [drainLoop, h]
    · have h' : (beh e).throws = false := by
        simpa using h
      have hstep : drainLoop beh (e :: rest) osd log
          = drainLoop beh rest (osd ++ (beh e).enqueues) (log ++ [e]) := by
        simp [drainLoop, h']
      obtain ⟨k, hk, h1, h2, h3, h4⟩ := ih (osd ++ (beh e).enqueues) (log ++ [e])
      refine ⟨k + 1, Nat.succ_le_succ hk, ?_, ?_, ?_, ?_⟩
      · rw [hstep, h1]
        simp [List.take_succ_cons]
      · rw [hstep, h2]
        simp [List.take_succ_cons]
      · intro ht
        rw [hstep] at ht ⊢
        rw [h3 ht]
        simp [List.drop_succ_cons]
      · intro ht
        rw [hstep] at ht ⊢
        obtain ⟨hkl, hdl⟩ := h4 ht
        exact ⟨by simp [hkl], hdl⟩

/-- load_delayed_impl in closed form: the drain runs on the swapped-out
pending list with the cache's list starting empty; the final pending list
is what the guard put back and the other state components are untouched. -/
theorem load_delayed_impl_eq (beh : delayed_load → LoaderAct)
    (s : object_statements) :
    load_delayed_impl beh s
      = ({ s with delayed_ := (drainLoop beh s.delayed_ [] []).dl },
         (drainLoop beh s.delayed_ [] []).log,
         (drainLoop beh s.delayed_ [] []).threw) := by
  simp only [load_delayed_impl, list_swap, clear_delayed]
  split <;> rfl

/-- A sequence of delay_load calls appends the entries, in order, at the
back of the pending vector and changes nothing else. -/
theorem queue_all_eq (es : List delayed_load) :
    ∀ s : object_statements,
      queue_all es s = { s with delayed_ := s.delayed_ ++ es } := by
  induction es with
  | nil =>
    intro s
    show s = { s with delayed_ := s.delayed_ ++ [] }
    simp
  | cons e tail ih =>
    intro s
    have hstep : queue_all (e :: tail) s
        = queue_all tail (delay_load e.id e.obj e.pos e.loader s) := rfl
    rw [hstep, ih]
    simp [delay_load]

/-- size_t subtraction agrees with truncated Nat subtraction when the
minuend is a size_t value at least as large as the subtrahend. -/
theorem size_t_sub_exact (a b : Nat) (hba : b ≤ a) (ha : a < 2 ^ 64) :
    size_t_sub a b = a - b := by
  have h64 : (2 : Nat) ^ 64 = 18446744073709551616 := by norm_num
  simp only [size_t_sub, h64] at *
  omega

/-- When no loader throws, load_delayed on a locked cache drains the whole
pending list in order and leaves it empty. -/
theorem load_delayed_noThrow_eq (beh : delayed_load → LoaderAct)
    (hT : ∀ e, (beh e).throws = false) (s : object_statements)
    (hL : s.locked_ = true) :
    load_delayed beh s
      = some ({ s with delayed_ := [] }, s.delayed_, false) := by
  by_cases hd : s.delayed_.isEmpty = true
  · have hdl : s.delayed_ = [] := by
      simpa using hd
    simp [load_delayed, hL, hd, hdl]
    cases s
    simp_all
  · simp only [load_delayed, hL, if_true, hd, if_false]
    rw [load_delayed_impl_eq]
    obtain ⟨k, hk, hlog, hosd, hthr, hnothr⟩ := drainLoop_spec beh s.delayed_ [] []
    have ht : (drainLoop beh s.delayed_ [] []).threw = false :=
      drainLoop_noThrow beh hT _ _ _
    obtain ⟨hkl, hdl2⟩ := hnothr ht
    have hlog2 : (drainLoop beh s.delayed_ [] []).log = s.delayed_ := by
      rw [hlog, hkl]
      simp
    rw [ht, hdl2, hlog2]
    simp [hL]

/-! ## Claims -/

/-- Claim C5: unlock () on a cache whose lock is not held faults, and two
lock () calls without an intervening unlock () fault; otherwise lock ()
marks the cache locked and unlock () marks it unlocked, with no side
effect beyond the boolean flag reported by locked () (every other state
component is preserved verbatim). -/
theorem lock_unlock_pairing (s : object_statements) :
    (s.locked_ = false → unlock s = none) ∧
    (s.locked_ = true → lock s = none) ∧
    (s.locked_ = false → lock s = some { s with locked_ := true } ∧
      locked { s with locked_ := true } = true) ∧
    (s.locked_ = true → unlock s = some { s with locked_ := false } ∧
      locked { s with locked_ := false } = false) := by
  refine ⟨?_, ?_, ?_, ?_⟩ <;> intro h <;> simp [lock, unlock, locked, h]

/-- Witness for lock_unlock_pairing at the freshly constructed cache and
at its locked successor. -/
theorem lock_unlock_pairing_witness :
    unlock base_state = none ∧
    lock base_state = some { base_state with locked_ := true } ∧
    lock { base_state with locked_ := true } = none ∧
    unlock { base_state with locked_ := true }
      = some { { base_state with locked_ := true } with locked_ := false } := by
  refine ⟨?_, ?_, ?_, ?_⟩
  · exact (lock_unlock_pairing base_state).1 rfl
  · exact ((lock_unlock_pairing base_state).2.2.1 rfl).1
  · exact (lock_unlock_pairing { base_state with locked_ := true }).2.1 rfl
  · exact ((lock_unlock_pairing { base_state with locked_ := true }).2.2.2 rfl).1

/-- Claim C4 counterexample: on a concrete unlocked cache, delay_load does
not fault — the source body (lines 244-251) contains no assertion — and
simply appends its entry to the pending queue, returning normally. -/
theorem delay_load_unlocked_counterexample :
    locked c4_state = false ∧
    delay_load 7 8 9 none c4_state
      = { c4_state with delayed_ := [⟨7, 8, 9, none⟩] } := by
  constructor <;> rfl

/-- Claim C4 as amended: delay_load performs no lock check; it appends
exactly one entry to the pending queue regardless of the lock state and
never faults, while the assertion-class fault for unlocked use is raised
only by load_delayed (and double-lock and unlock-without-lock fault as
stated elsewhere). -/
theorem delay_load_no_lock_check (s : object_statements) (i o p : Nat)
    (l : Option Nat) :
    delay_load i o p l s = { s with delayed_ := s.delayed_ ++ [⟨i, o, p, l⟩] } ∧
    (s.locked_ = false →
      ∀ beh : delayed_load → LoaderAct, load_delayed beh s = none) := by
  refine ⟨rfl, ?_⟩
  intro h beh
  simp [load_delayed, h]

/-- Witness for delay_load_no_lock_check on a concrete unlocked cache. -/
theorem delay_load_no_lock_check_witness :
    delay_load 7 8 9 none c4_state
      = { c4_state with delayed_ := c4_state.delayed_ ++ [⟨7, 8, 9, none⟩] } ∧
    load_delayed beh_quiet c4_state = none := by
  have h := delay_load_no_lock_check c4_state 7 8 9 none
  exact ⟨h.1, h.2 rfl beh_quiet⟩

/-- Claim C7: the derived column-count constants satisfy select = total,
insert = total - inverse - managed_optimistic and update = insert - id -
readonly (size_t arithmetic agreeing with truncated subtraction for any
well-formed descriptor), and for total 10, inverse 2, managed optimistic
1, id 1, readonly 1 they give insert 7 and update 5. -/
theorem column_count_identities (t : object_traits_t)
    (hcc : t.column_count < 2 ^ 64)
    (hio : t.inverse_column_count + t.managed_optimistic_column_count
             ≤ t.column_count)
    (hir : t.id_column_count + t.readonly_column_count
             ≤ insert_column_count t) :
    (select_column_count t = t.column_count ∧
     insert_column_count t
       = t.column_count - t.inverse_column_count
           - t.managed_optimistic_column_count ∧
     update_column_count t
       = insert_column_count t - t.id_column_count
           - t.readonly_column_count) ∧
    (insert_column_count c7_traits = 7 ∧ update_column_count c7_traits = 5) := by
  have h1 : size_t_sub t.column_count t.inverse_column_count
      = t.column_count - t.inverse_column_count :=
    size_t_sub_exact _ _ (by omega) hcc
  have hins : insert_column_count t
      = t.column_count - t.inverse_column_count
          - t.managed_optimistic_column_count := by
    unfold insert_column_count
    rw [h1]
    exact size_t_sub_exact _ _ (by omega) (by omega)
  have hupd : update_column_count t
      = insert_column_count t - t.id_column_count
          - t.readonly_column_count := by
    unfold update_column_count
    rw [size_t_sub_exact (insert_column_count t) t.id_column_count
          (by omega) (by omega)]
    exact size_t_sub_exact _ _ (by omega) (by omega)
  exact ⟨⟨rfl, hins, hupd⟩, by decide, by decide⟩

/-- Witness for column_count_identities at the descriptor of the spec's
example (total 10, inverse 2, managed optimistic 1, id 1, readonly 1). -/
theorem column_count_identities_witness :
    select_column_count c7_traits = 10 ∧
    insert_column_count c7_traits = 7 ∧
    update_column_count c7_traits = 5 := by
  have h := column_count_identities c7_traits (by decide) (by decide) (by decide)
  exact ⟨h.1.1, h.2.1, h.2.2⟩

/-- Claim C8 counterexample: the image-version counters are not monotonic
across public operations — on a cache whose stored insert image version is
5, the public setter insert_image_version (3) stores 3, strictly below 5. -/
theorem image_version_decrease_counterexample :
    insert_image_version c8_state = 5 ∧
    insert_image_version (insert_image_version_set 3 c8_state) = 3 ∧
    (3 : Nat) < 5 := by
  refine ⟨rfl, rfl, by decide⟩

/-- Claim C8 as amended: the stored image-version counters are mutated
only by their setters, which store the caller-supplied value verbatim;
every other public operation (lock, unlock, delay_load, clear_delayed,
load_delayed, the five statement accessors and the container-cache
accessor) leaves all six counters unchanged, so the cache itself never
decreases a counter — a decrease happens exactly when a caller passes a
smaller value, and the cache performs no monotonicity check. -/
theorem image_versions_preserved (s : object_statements) :
    (∀ s2, lock s = some s2 → image_versions s2 = image_versions s) ∧
    (∀ s2, unlock s = some s2 → image_versions s2 = image_versions s) ∧
    (∀ i o p l, image_versions (delay_load i o p l s) = image_versions s) ∧
    image_versions (clear_delayed s).1 = image_versions s ∧
    (∀ beh s2 log t, load_delayed beh s = some (s2, log, t) →
      image_versions s2 = image_versions s) ∧
    image_versions (persist_statement s).1 = image_versions s ∧
    image_versions (find_statement s).1 = image_versions s ∧
    image_versions (update_statement s).1 = image_versions s ∧
    image_versions (erase_statement s).1 = image_versions s ∧
    image_versions (optimistic_erase_statement s).1 = image_versions s ∧
    image_versions (container_statment_cache s).1 = image_versions s ∧
    (∀ v, insert_image_version_set v s
            = { s with insert_image_version_ := v } ∧
          update_image_version_set v s
            = { s with update_image_version_ := v } ∧
          update_id_image_version_set v s
            = { s with update_id_image_version_ := v } ∧
          select_image_version_set v s
            = { s with select_image_version_ := v } ∧
          id_image_version_set v s = { s with id_image_version_ := v } ∧
          optimistic_id_image_version_set v s
            = { s with od_id_image_version_ := v }) := by
  refine ⟨?_, ?_, ?_, ?_, ?_, ?_, ?_, ?_, ?_, ?_, ?_, ?_⟩
  · intro s2 h
    unfold lock at h
    split at h
    · exact absurd h (by simp)
    · cases h
      rfl
  · intro s2 h
    unfold unlock at h
    split at h
    · cases h
      rfl
    · exact absurd h (by simp)
  · intro i o p l
    rfl
  · unfold clear_delayed
    split <;> rfl
  · intro beh s2 log t h
    unfold load_delayed at h
    split at h
    · rw [load_delayed_impl_eq] at h
      split at h <;> (cases h; rfl)
    · exact absurd h (by simp)
  · unfold persist_statement
    split <;> rfl
  · unfold find_statement
    split <;> rfl
  · unfold update_statement
    split <;> rfl
  · unfold erase_statement
    split <;> rfl
  · unfold optimistic_erase_statement
    split <;> rfl
  · unfold container_statment_cache container_statement_cache_ptr_get
    split <;> rfl
  · intro v
    exact ⟨rfl, rfl, rfl, rfl, rfl, rfl⟩

/-- Witness for image_versions_preserved on a concrete cache. -/
theorem image_versions_preserved_witness :
    image_versions { c8_state with locked_ := true }
      = image_versions c8_state ∧
    image_versions (delay_load 1 2 3 none c8_state) = image_versions c8_state ∧
    image_versions (persist_statement c8_state).1 = image_versions c8_state := by
  have h := image_versions_preserved c8_state
  exact ⟨h.1 { c8_state with locked_ := true } rfl, h.2.2.1 1 2 3 none,
         h.2.2.2.2.2.1⟩

/-- Claim C10: every image-version setter stores the caller-supplied value
verbatim — for any value v, including one lower than the currently stored
version, setting and then reading each of the six counters (insert,
update, update-id, select, id, optimistic-id) yields exactly v, the setter
result being precisely the record with that one field replaced; the cache
performs no monotonicity check. -/
theorem version_setters_verbatim (s : object_statements) (v : Nat) :
    insert_image_version (insert_image_version_set v s) = v ∧
    update_image_version (update_image_version_set v s) = v ∧
    update_id_image_version (update_id_image_version_set v s) = v ∧
    select_image_version (select_image_version_set v s) = v ∧
    id_image_version (id_image_version_set v s) = v ∧
    optimistic_id_image_version (optimistic_id_image_version_set v s) = v ∧
    insert_image_version_set v s = { s with insert_image_version_ := v } ∧
    update_image_version_set v s = { s with update_image_version_ := v } ∧
    update_id_image_version_set v s
      = { s with update_id_image_version_ := v } ∧
    select_image_version_set v s = { s with select_image_version_ := v } ∧
    id_image_version_set v s = { s with id_image_version_ := v } ∧
    optimistic_id_image_version_set v s
      = { s with od_id_image_version_ := v } :=
  ⟨rfl, rfl, rfl, rfl, rfl, rfl, rfl, rfl, rfl, rfl, rfl, rfl⟩

/-- Claim C9: for a mapped type without a managed optimistic column the
od_ member's type is the empty false specialization carrying zero extra
state (all its values are equal, so there is no id+version binding and no
alternate erase statement to expose); for a type with such a column the
selector managed_optimistic_column_count != 0 picks the true
specialization, whose values carry exactly the id+version image binding
and the alternate erase statement handle. -/
theorem optimistic_data_selection (t : object_traits_t) :
    (t.managed_optimistic_column_count = 0 →
       od_selector t = false ∧
       od_type t = Unit ∧
       ∀ x y : optimistic_data false, x = y) ∧
    (t.managed_optimistic_column_count ≠ 0 →
       od_selector t = true ∧
       od_type t = optimistic_data_true ∧
       ∀ d : optimistic_data_true,
         d = ⟨d.id_image_version_, d.id_image_binding_, d.erase_⟩) := by
  constructor
  · intro h
    have hsel : od_selector t = false := by
      simp [od_selector, h]
    refine ⟨hsel, ?_, ?_⟩
    · show optimistic_data (od_selector t) = Unit
      rw [hsel]
      rfl
    · intro x y
      exact @Subsingleton.elim Unit _ x y
  · intro h
    have hsel : od_selector t = true := by
      simp [od_selector, h]
    refine ⟨hsel, ?_, ?_⟩
    · show optimistic_data (od_selector t) = optimistic_data_true
      rw [hsel]
      rfl
    · intro d
      rfl

/-- Witness for optimistic_data_selection at descriptors with and without
a managed optimistic column. -/
theorem optimistic_data_selection_witness :
    od_selector c9_plain_traits = false ∧
    od_selector c7_traits = true ∧
    od_type c9_plain_traits = Unit ∧
    od_type c7_traits = optimistic_data_true := by
  have h0 := (optimistic_data_selection c9_plain_traits).1 rfl
  have h1 := (optimistic_data_selection c7_traits).2 (by decide)
  exact ⟨h0.1, h1.1, h0.2.1, h1.2.1⟩

/-- Claim C6: each of the five statement accessors constructs its
underlying prepared statement at most once — on the first call, where it
stores the fresh handle and advances the allocator by one — while a call
on a cache whose statement already exists returns the stored handle and
changes nothing; calling any accessor again after a call returns the very
same state and handle.  The same holds for the nested container statement
cache accessor. -/
theorem statements_lazy_singleton (s : object_statements) :
    (persist_statement (persist_statement s).1 = persist_statement s ∧
     (∀ p, s.persist_ = some p → persist_statement s = (s, p)) ∧
     (s.persist_ = none →
       (persist_statement s).1.persist_ = some (persist_statement s).2 ∧
       (persist_statement s).1.next_statement_id
         = s.next_statement_id + 1)) ∧
    (find_statement (find_statement s).1 = find_statement s ∧
     (∀ p, s.find_ = some p → find_statement s = (s, p)) ∧
     (s.find_ = none →
       (find_statement s).1.find_ = some (find_statement s).2 ∧
       (find_statement s).1.next_statement_id = s.next_statement_id + 1)) ∧
    (update_statement (update_statement s).1 = update_statement s ∧
     (∀ p, s.update_ = some p → update_statement s = (s, p)) ∧
     (s.update_ = none →
       (update_statement s).1.update_ = some (update_statement s).2 ∧
       (update_statement s).1.next_statement_id
         = s.next_statement_id + 1)) ∧
    (erase_statement (erase_statement s).1 = erase_statement s ∧
     (∀ p, s.erase_ = some p → erase_statement s = (s, p)) ∧
     (s.erase_ = none →
       (erase_statement s).1.erase_ = some (erase_statement s).2 ∧
       (erase_statement s).1.next_statement_id
         = s.next_statement_id + 1)) ∧
    (optimistic_erase_statement (optimistic_erase_statement s).1
       = optimistic_erase_statement s ∧
     (∀ p, s.od_erase_ = some p → optimistic_erase_statement s = (s, p)) ∧
     (s.od_erase_ = none →
       (optimistic_erase_statement s).1.od_erase_
         = some (optimistic_erase_statement s).2 ∧
       (optimistic_erase_statement s).1.next_statement_id
         = s.next_statement_id + 1)) ∧
    (container_statment_cache (container_statment_cache s).1
       = container_statment_cache s ∧
     (∀ p, s.container_cache_p_ = some p →
       container_statment_cache s = (s, p)) ∧
     (s.container_cache_p_ = none →
       (container_statment_cache s).1.container_cache_p_
         = some (container_statment_cache s).2 ∧
       (container_statment_cache s).1.next_statement_id
         = s.next_statement_id + 1)) := by
  refine ⟨⟨?_, ?_, ?_⟩, ⟨?_, ?_, ?_⟩, ⟨?_, ?_, ?_⟩, ⟨?_, ?_, ?_⟩,
          ⟨?_, ?_, ?_⟩, ⟨?_, ?_, ?_⟩⟩
  · cases h : s.persist_ <;> simp [persist_statement, h]
  · intro p hp
    simp [persist_statement, hp]
  · intro hn
    simp [persist_statement, hn]
  · cases h : s.find_ <;> simp [find_statement, h]
  · intro p hp
    simp [find_statement, hp]
  · intro hn
    simp [find_statement, hn]
  · cases h : s.update_ <;> simp [update_statement, h]
  · intro p hp
    simp [update_statement, hp]
  · intro hn
    simp [update_statement, hn]
  · cases h : s.erase_ <;> simp [erase_statement, h]
  · intro p hp
    simp [erase_statement, hp]
  · intro hn
    simp [erase_statement, hn]
  · cases h : s.od_erase_ <;> simp [optimistic_erase_statement, h]
  · intro p hp
    simp [optimistic_erase_statement, hp]
  · intro hn
    simp [optimistic_erase_statement, hn]
  · cases h : s.container_cache_p_ <;>
      simp [container_statment_cache, container_statement_cache_ptr_get, h]
  · intro p hp
    simp [container_statment_cache, container_statement_cache_ptr_get, hp]
  · intro hn
    simp [container_statment_cache, container_statement_cache_ptr_get, hn]

/-- Witness for statements_lazy_singleton at a fresh cache (nothing
constructed yet) and at a cache with every statement already built. -/
theorem statements_lazy_singleton_witness :
    persist_statement (persist_statement base_state).1
      = persist_statement base_state ∧
    (persist_statement base_state).1.persist_
      = some (persist_statement base_state).2 ∧
    (persist_statement base_state).1.next_statement_id
      = base_state.next_statement_id + 1 ∧
    persist_statement c6_full_state = (c6_full_state, 10) ∧
    find_statement c6_full_state = (c6_full_state, 11) ∧
    update_statement c6_full_state = (c6_full_state, 12) ∧
    erase_statement c6_full_state = (c6_full_state, 13) ∧
    optimistic_erase_statement c6_full_state = (c6_full_state, 14) ∧
    container_statment_cache c6_full_state = (c6_full_state, 15) := by
  have hb := statements_lazy_singleton base_state
  have hf := statements_lazy_singleton c6_full_state
  exact ⟨hb.1.1, (hb.1.2.2 rfl).1, (hb.1.2.2 rfl).2,
         hf.1.2.1 10 rfl, hf.2.1.2.1 11 rfl, hf.2.2.1.2.1 12 rfl,
         hf.2.2.2.1.2.1 13 rfl, hf.2.2.2.2.1.2.1 14 rfl,
         hf.2.2.2.2.2.2.1 15 rfl⟩

/-- Claim C3: constructing an auto_lock on an already-locked cache does
not fault, reports locked () = false and its destruction performs no
action; on an unlocked cache the constructor acquires the lock and
reports locked () = true, and its destruction unlocks the cache and
clears all still-pending delayed loads while invoking no loader. -/
theorem auto_lock_spec (s : object_statements) :
    (s.locked_ = true →
       auto_lock_ctor s = (⟨false⟩, s) ∧
       auto_lock_locked (auto_lock_ctor s).1 = false ∧
       auto_lock_dtor (auto_lock_ctor s).1 (auto_lock_ctor s).2 = (s, [])) ∧
    (s.locked_ = false →
       auto_lock_locked (auto_lock_ctor s).1 = true ∧
       (auto_lock_ctor s).2 = { s with locked_ := true } ∧
       locked (auto_lock_ctor s).2 = true ∧
       auto_lock_dtor (auto_lock_ctor s).1 (auto_lock_ctor s).2
         = ({ s with locked_ := false, delayed_ := [] }, [])) := by
  constructor
  · intro h
    have hctor : auto_lock_ctor s = (⟨false⟩, s) := by
      simp [auto_lock_ctor, h]
    refine ⟨hctor, ?_, ?_⟩
    · rw [hctor]
      rfl
    · rw [hctor]
      simp [auto_lock_dtor, auto_lock_locked]
  · intro h
    have hctor : auto_lock_ctor s = (⟨true⟩, { s with locked_ := true }) := by
      simp [auto_lock_ctor, h]
    refine ⟨by rw [hctor]; rfl, by rw [hctor], by rw [hctor]; rfl, ?_⟩
    rw [hctor]
    show auto_lock_dtor ⟨true⟩ { s with locked_ := true } = _
    simp only [auto_lock_dtor, if_true]
    have hclear : (clear_delayed { s with locked_ := false }).1
        = { s with locked_ := false, delayed_ := [] } := by
      unfold clear_delayed
      split
      · next hemp =>
        have hdl : s.delayed_ = [] := by
          simpa using hemp
        exact (delayed_nil_eta { s with locked_ := false } hdl).symm
      · rfl
    exact congrArg (fun x => (x, ([] : List delayed_load))) hclear

/-- Witness for auto_lock_spec on an already-locked cache and on a free
cache with one pending delayed load. -/
theorem auto_lock_spec_witness :
    auto_lock_ctor c3_locked_state = (⟨false⟩, c3_locked_state) ∧
    auto_lock_dtor (auto_lock_ctor c3_locked_state).1
        (auto_lock_ctor c3_locked_state).2 = (c3_locked_state, []) ∧
    auto_lock_locked (auto_lock_ctor c3_free_state).1 = true ∧
    auto_lock_dtor (auto_lock_ctor c3_free_state).1
        (auto_lock_ctor c3_free_state).2
      = ({ c3_free_state with locked_ := false, delayed_ := [] }, []) := by
  have hl := (auto_lock_spec c3_locked_state).1 rfl
  have hf := (auto_lock_spec c3_free_state).2 rfl
  exact ⟨hl.1, hl.2.2, hf.1, hf.2.2.2⟩

/-- Claim C1: while the cache is locked, each delay_load call appends
exactly one entry to the pending queue; a subsequent load_delayed (which
requires the lock) invokes the loader of every pending entry exactly
once, in enqueue (FIFO) order, and leaves the pending queue empty; and
clear_delayed empties the queue without invoking any loader. -/
theorem delayed_queue_fifo (beh : delayed_load → LoaderAct)
    (s : object_statements) (es : List delayed_load)
    (hT : ∀ e, (beh e).throws = false)
    (hL : s.locked_ = true) (hE : s.delayed_ = []) :
    (∀ (s2 : object_statements) (i o p : Nat) (l : Option Nat),
       (delay_load i o p l s2).delayed_.length = s2.delayed_.length + 1) ∧
    (queue_all es s).delayed_ = es ∧
    load_delayed beh (queue_all es s)
      = some ({ queue_all es s with delayed_ := [] }, es, false) ∧
    clear_delayed (queue_all es s)
      = ({ queue_all es s with delayed_ := [] }, []) := by
  have hq : queue_all es s = { s with delayed_ := es } := by
    rw [queue_all_eq]
    simp [hE]
  refine ⟨?_, ?_, ?_, ?_⟩
  · intro s2 i o p l
    simp [delay_load]
  · rw [hq]
  · rw [hq]
    exact load_delayed_noThrow_eq beh hT { s with delayed_ := es } hL
  · rw [hq]
    unfold clear_delayed
    cases es <;> simp

/-- Witness for delayed_queue_fifo: three entries queued on a locked empty
cache are drained in enqueue order by quiet loaders. -/
theorem delayed_queue_fifo_witness :
    (queue_all c1_entries c1_state).delayed_ = c1_entries ∧
    load_delayed beh_quiet (queue_all c1_entries c1_state)
      = some ({ queue_all c1_entries c1_state with delayed_ := [] },
              c1_entries, false) ∧
    clear_delayed (queue_all c1_entries c1_state)
      = ({ queue_all c1_entries c1_state with delayed_ := [] }, []) := by
  have h := delayed_queue_fifo beh_quiet c1_state c1_entries
    (fun _ => rfl) rfl rfl
  exact ⟨h.2.1, h.2.2.1, h.2.2.2⟩

/-- Claim C2: load_delayed swaps the pending list into a local working
list before any loader runs; every entry a loader enqueues while the
drain is in progress lands in the cache's own list (the osd component),
never in the list being iterated — the invocation log is always a prefix,
in order, of the originally pending entries; and on every exit path,
normal or exceptional, the invoked entries followed by the entries left
pending are exactly the original queue, so no entry is silently lost and
none is processed twice (the queue ends empty on normal exit and holds
exactly the unprocessed suffix after a throw). -/
theorem load_delayed_swap_guard_safe (beh : delayed_load → LoaderAct)
    (s : object_statements) (hL : s.locked_ = true) :
    ∃ s2 log t, load_delayed beh s = some (s2, log, t) ∧
      ∃ k, k ≤ s.delayed_.length ∧
        log = s.delayed_.take k ∧
        (drainLoop beh s.delayed_ [] []).osd
          = log.flatMap (fun e => (beh e).enqueues) ∧
        log ++ s2.delayed_ = s.delayed_ ∧
        (t = true → s2.delayed_ = s.delayed_.drop k) ∧
        (t = false → k = s.delayed_.length ∧ s2.delayed_ = []) := by
  by_cases hd : s.delayed_.isEmpty = true
  · have hdl : s.delayed_ = [] := by
      simpa using hd
    refine ⟨s, [], false, ?_, 0, ?_, ?_, ?_, ?_, ?_, ?_⟩
    · simp [load_delayed, hL, hd]
    · simp
    · simp [hdl]
    · simp [hdl, drainLoop]
    · simp [hdl]
    · intro ht
      cases ht
    · intro ht
      simp [hdl]
  · obtain ⟨k, hk, hlog, hosd, hthr, hnothr⟩ := drainLoop_spec beh s.delayed_ [] []
    refine ⟨{ s with delayed_ := (drainLoop beh s.delayed_ [] []).dl },
            (drainLoop beh s.delayed_ [] []).log,
            (drainLoop beh s.delayed_ [] []).threw, ?_, k, hk, ?_, ?_, ?_, ?_, ?_⟩
    · simp only [load_delayed, hL, if_true, hd, if_false]
      rw [load_delayed_impl_eq]
      simp [hL]
    · simpa using hlog
    · rw [hosd, hlog]
      simp
    · cases ht : (drainLoop beh s.delayed_ [] []).threw with
      | true =>
        show (drainLoop beh s.delayed_ [] []).log
            ++ (drainLoop beh s.delayed_ [] []).dl = s.delayed_
        rw [hthr ht, hlog]
        simp [List.take_append_drop]
      | false =>
        obtain ⟨hkl, hdl2⟩ := hnothr ht
        show (drainLoop beh s.delayed_ [] []).log
            ++ (drainLoop beh s.delayed_ [] []).dl = s.delayed_
        rw [hdl2, hlog, hkl]
        simp
    · intro ht
      show (drainLoop beh s.delayed_ [] []).dl = s.delayed_.drop k
      exact hthr ht
    · intro ht
      obtain ⟨hkl, hdl2⟩ := hnothr ht
      exact ⟨hkl, hdl2⟩

/-- Witness for load_delayed_swap_guard_safe: a locked cache with three
pending entries drained by loaders that enqueue further entries, the
second of which throws. -/
theorem load_delayed_swap_guard_safe_witness :
    ∃ s2 log t, load_delayed c2_beh c2_state = some (s2, log, t) ∧
      ∃ k, k ≤ c2_state.delayed_.length ∧
        log = c2_state.delayed_.take k ∧
        (drainLoop c2_beh c2_state.delayed_ [] []).osd
          = log.flatMap (fun e => (c2_beh e).enqueues) ∧
        log ++ s2.delayed_ = c2_state.delayed_ ∧
        (t = true → s2.delayed_ = c2_state.delayed_.drop k) ∧
        (t = false → k = c2_state.delayed_.length ∧ s2.delayed_ = []) :=
  load_delayed_swap_guard_safe c2_beh c2_state rfl

end OdbSqlite
